import Mathlib

/-!
Shallow embedding of `_import_picture_database.py` (the picture-import core:
`to_string`, `make_year_string`, and `ImportDatabase.get_worksheet_rows`).

Modelling conventions:
* A spreadsheet cell value is a Python scalar: `None`, `str`, `int`, or `float`.
  Floats are modelled as exact rationals (`ℚ`); Python's 3-decimal rounding
  (`round(x, 3)`) is modelled as round-half-even on the exact rational scaled
  by 1000, and Python's `str()` of a float is modelled exactly for floats that
  are integer multiples of 1/1000 (the only values produced after rounding).
* A raw row is a total map from lower-cased column name to cell value; a
  missing column reads as `None`.
* The external VectorWorks collaborators (`vs.GetObject`, `vs.NameClass`,
  `vs.ActiveClass`, `vs.ValidNumStr`) and the `PictureParameters` /
  picture-record classes live outside this repository's sources and are
  modelled from the spec where noted.
* String helpers (`lower`, `strip`, `translate`, `replace`) are implemented
  over character lists so that every definition evaluates by kernel reduction.
-/

/-- A Python scalar value as it arrives from the spreadsheet row. -/
inductive Cell where
  | none : Cell
  | str (s : String) : Cell
  | int (n : ℤ) : Cell
  | float (q : ℚ) : Cell
deriving DecidableEq

/-- A validated numeric quantity: Python keeps `int` and `float` distinct and
`str(round(v, 3))` renders them differently, so the embedding does too. -/
inductive PyNum where
  | int (n : ℤ) : PyNum
  | float (q : ℚ) : PyNum
deriving DecidableEq

/-- ASCII lower-casing of one character (Python `str.lower` restricted to the
ASCII column names this program uses). -/
def charLower (c : Char) : Char :=
  if c = 'A' then 'a' else if c = 'B' then 'b' else if c = 'C' then 'c'
  else if c = 'D' then 'd' else if c = 'E' then 'e' else if c = 'F' then 'f'
  else if c = 'G' then 'g' else if c = 'H' then 'h' else if c = 'I' then 'i'
  else if c = 'J' then 'j' else if c = 'K' then 'k' else if c = 'L' then 'l'
  else if c = 'M' then 'm' else if c = 'N' then 'n' else if c = 'O' then 'o'
  else if c = 'P' then 'p' else if c = 'Q' then 'q' else if c = 'R' then 'r'
  else if c = 'S' then 's' else if c = 'T' then 't' else if c = 'U' then 'u'
  else if c = 'V' then 'v' else if c = 'W' then 'w' else if c = 'X' then 'x'
  else if c = 'Y' then 'y' else if c = 'Z' then 'z' else c

/-- Python `str.lower()` on a column/selector name. -/
def strLower (s : String) : String :=
  String.mk (s.toList.map charLower)

/-- The characters of Python `string.whitespace`. -/
def pyWsChars : List Char :=
  [' ', '\t', '\n', '\r', '\x0b', '\x0c']

/-- Strip leading and trailing whitespace from a character list. -/
def trimWs (l : List Char) : List Char :=
  ((l.dropWhile (fun c => pyWsChars.contains c)).reverse.dropWhile
    (fun c => pyWsChars.contains c)).reverse

/-- Python `str()` of an `int`. -/
def pyIntStr (z : ℤ) : String :=
  if z < 0 then "-" ++ toString z.natAbs else toString z.natAbs

/-- Python `int()` applied to a float: truncation toward zero. -/
def pyTrunc (q : ℚ) : ℤ :=
  let mag : ℕ := q.num.natAbs / q.den
  if q.num < 0 then -(mag : ℤ) else (mag : ℤ)

/-- Python `round(q, 3)` expressed in units of 1/1000: round-half-even of
`q * 1000`, computed on the numerator and denominator directly. -/
def pyRound3Milli (q : ℚ) : ℤ :=
  let n := 1000 * q.num
  let d : ℤ := (q.den : ℤ)
  let f := Int.fdiv n d
  let r := n - f * d
  if 2 * r < d then f
  else if d < 2 * r then f + 1
  else if f % 2 = 0 then f else f + 1

/-- Python `str()` of the float `z / 1000`: sign, integer part, a dot, and the
fractional digits with trailing zeros removed — but a lone `"N.0"` when the
value is integral (Python never drops the fractional part of a float). -/
def pyFloatStrMilli (z : ℤ) : String :=
  let sign := if z < 0 then "-" else ""
  let a := z.natAbs
  let ip := a / 1000
  let fr := a % 1000
  if fr = 0 then sign ++ toString ip ++ ".0"
  else
    let d1 := fr / 100
    let d2 := fr / 10 % 10
    let d3 := fr % 10
    let fs :=
      if d3 ≠ 0 then toString d1 ++ toString d2 ++ toString d3
      else if d2 ≠ 0 then toString d1 ++ toString d2
      else toString d1
    sign ++ toString ip ++ "." ++ fs

/-- Python `str()` of a float, faithful for exact multiples of 1/1000 (the
only float values this program renders); other rationals fall back to a
num/den notation that no claim depends on. -/
def pyFloatRepr (q : ℚ) : String :=
  if (1000 * q.num) % (q.den : ℤ) = 0
  then pyFloatStrMilli (Int.fdiv (1000 * q.num) (q.den : ℤ))
  else pyIntStr q.num ++ "/" ++ toString q.den

/-- Python `"{}".format(value)` / `str(value)` on a cell value. -/
def formatCell : Cell → String
  | Cell.none => "None"
  | Cell.str s => s
  | Cell.int n => pyIntStr n
  | Cell.float q => pyFloatRepr q

/-- Embedding of `to_string` (source lines 22–33): strings pass through, ints
print plainly, integral floats print as ints (`math.modf(var)[0] == 0`, i.e.
denominator 1, then `str(int(var))`), other floats print as floats; any other
type falls off the end of the function and returns `None`. -/
def toStringPy : Cell → Option String
  | Cell.str s => some s
  | Cell.int n => some (pyIntStr n)
  | Cell.float q =>
      if q.den = 1 then some (pyIntStr q.num) else some (pyFloatRepr q)
  | Cell.none => Option.none

/-- Embedding of `make_year_string` (source lines 10–19). -/
def makeYearString : Cell → String
  | Cell.str s => s
  | Cell.float q => pyIntStr (pyTrunc q)
  | Cell.int n => pyIntStr n
  | Cell.none => "Unknown"

/-- Python truthiness of a cell value. -/
def pyTruthy : Cell → Bool
  | Cell.none => false
  | Cell.str s => !(s == "")
  | Cell.int n => !(n == 0)
  | Cell.float q => !(q.num == 0)

/-- Python `cell == "lit"`: only a `str` cell can equal a string literal. -/
def cellEqStr (c : Cell) (t : String) : Bool :=
  match c with
  | Cell.str s => s == t
  | _ => false

/-- Whether a cell is Python `None`. -/
def isNoneCell : Cell → Bool
  | Cell.none => true
  | _ => false

/-- Presence-flag parse used for `withImage`, `withMatboard`, `withGlass`
(source lines 210, 336, 437): `if cell_value and cell_value != "" and
cell_value != "False" and cell_value != "No"` — note the leading Python
truthiness test, which makes numeric zero count as absent. -/
def presenceTruthy (c : Cell) : String :=
  if pyTruthy c && !cellEqStr c "" && !cellEqStr c "False" && !cellEqStr c "No"
  then "True" else "False"

/-- Presence-flag parse used for `withFrame` (source line 248):
`if cell_value is not None and cell_value != "" and cell_value != "False" and
cell_value != "No"` — an `is not None` test instead of truthiness, so numeric
zero counts as present here. -/
def presenceNotNone (c : Cell) : String :=
  if !isNoneCell c && !cellEqStr c "" && !cellEqStr c "False" && !cellEqStr c "No"
  then "True" else "False"

/-- Modelled from the spec: digit-sequence parsing inside the external
numeric-string parser `vs.ValidNumStr` (not part of this repository):
decimal digits with at most one decimal point, at least one digit. -/
def parseDecimal (l : List Char) : Option ℚ :=
  let intPart := l.takeWhile Char.isDigit
  let rest := l.dropWhile Char.isDigit
  let intVal : ℕ := intPart.foldl (fun a c => 10 * a + (c.toNat - 48)) 0
  match rest with
  | [] => if intPart.isEmpty then Option.none else some (mkRat (intVal : ℤ) 1)
  | '.' :: fracPart =>
      if fracPart.all Char.isDigit && !(intPart.isEmpty && fracPart.isEmpty) then
        let fracVal : ℕ := fracPart.foldl (fun a c => 10 * a + (c.toNat - 48)) 0
        some (mkRat ((intVal * 10 ^ fracPart.length + fracVal : ℕ) : ℤ) (10 ^ fracPart.length))
      else Option.none
  | _ => Option.none

/-- Modelled from the spec: the external numeric-string parser
`vs.ValidNumStr`: leading/trailing whitespace trimmed, optional sign, then a
decimal literal; rejects empty or non-numeric text. Returns the parsed value
as a float (a VectorWorks Real). -/
def validNumStr (s : String) : Option ℚ :=
  match trimWs s.toList with
  | '-' :: rest => (parseDecimal rest).map Rat.neg
  | '+' :: rest => parseDecimal rest
  | l => parseDecimal l

/-- Embedding of the per-field validation idiom (e.g. source line 217):
`valid, value = vs.ValidNumStr(cell_value) if isinstance(cell_value, str)
else [True, cell_value]` followed by the `valid and value is not None` test. -/
def validateNumeric : Cell → Option PyNum
  | Cell.str s => (validNumStr s).map PyNum.float
  | Cell.int n => some (PyNum.int n)
  | Cell.float q => some (PyNum.float q)
  | Cell.none => Option.none

/-- Embedding of `str(round(value, 3))` (e.g. source line 219). -/
def renderNum : PyNum → String
  | PyNum.int n => pyIntStr n
  | PyNum.float q => pyFloatStrMilli (pyRound3Milli q)

/-- A validated-and-rendered numeric field value, when the cell passes. -/
def numField (c : Cell) : Option String :=
  (validateNumeric c).map renderNum

/-- Modelled from the spec: the `PictureParameters` output record
(`_picture_settings.py` is not among this repository's sources). All fields
are string-typed, defaulting to `""`; `frameThicknessSelector` is included
because source line 273 reads it from the `pictureParameters` object. -/
structure PictureParameters where
  pictureName : String := ""
  withImage : String := ""
  imageWidth : String := ""
  imageHeight : String := ""
  imagePosition : String := ""
  withFrame : String := ""
  frameWidth : String := ""
  frameHeight : String := ""
  frameThickness : String := ""
  frameThicknessSelector : String := ""
  frameDepth : String := ""
  frameClass : String := ""
  frameTextureScale : String := ""
  frameTextureRotation : String := ""
  withMatboard : String := ""
  windowWidth : String := ""
  windowHeight : String := ""
  matboardPosition : String := ""
  matboardClass : String := ""
  matboardTextureScale : String := ""
  matboardTextureRotat : String := ""
  withGlass : String := ""
  glassPosition : String := ""
  glassClass : String := ""
  createSymbol : String := ""
  symbolFolder : String := ""
  pictureClass : String := ""
deriving DecidableEq

/-- Modelled from the spec: the shared metadata record object
`settings.pictureRecord` that `get_worksheet_rows` mutates in place
(source lines 493–525). -/
structure PictureRecord where
  imageSize : String := ""
  frameSize : String := ""
  windowSize : String := ""
  artworkTitle : String := ""
  authorName : String := ""
  artworkCreationDate : String := ""
  artworkMedia : String := ""
  roomLocation : String := ""
  artworkSource : String := ""
  registrationNumber : String := ""
  authorBirthCountry : String := ""
  authorBirthDate : String := ""
  authorDeathDate : String := ""
  designNotes : String := ""
  exhibitionMedia : String := ""
deriving DecidableEq

/-- The import settings consumed by `get_worksheet_rows`: one selector string
per output field (the literal `"-- Manual"` selects the manual value, the
literal `"-- Don't Import"` disables a metadata field, anything else is a
column name) plus the session-wide flags and the manual `pictureParameters`
values.  The connection-level fields of `ImportSettings` drive the excluded
I/O layer and are not part of the core. -/
structure Settings where
  imageTextureSelector : String
  withImageSelector : String
  imageWidthSelector : String
  imageHeightSelector : String
  imagePositionSelector : String
  withFrameSelector : String
  frameWidthSelector : String
  frameHeightSelector : String
  frameThicknessSelector : String
  frameDepthSelector : String
  frameClassSelector : String
  frameTextureScaleSelector : String
  frameTextureRotationSelector : String
  withMatboardSelector : String
  windowWidthSelector : String
  windowHeightSelector : String
  matboardPositionSelector : String
  matboardClassSelector : String
  matboardTextureScaleSelector : String
  matboardTextureRotatSelector : String
  withGlassSelector : String
  glassPositionSelector : String
  glassClassSelector : String
  createMissingClasses : Bool
  symbolCreateSymbol : String
  symbolFolderSelector : String
  symbolFolder : String
  classAssignPictureClass : String
  classClassPictureSelector : String
  metaImportMetadata : String
  metaArtworkTitleSelector : String
  metaAuthorNameSelector : String
  metaArtworkCreationDateSelector : String
  metaArtworkMediaSelector : String
  metaRoomLocationSelector : String
  metaArtworkSourceSelector : String
  metaRegistrationNumberSelector : String
  metaAuthorBirthCountrySelector : String
  metaAuthorBirthDateSelector : String
  metaAuthorDeathDateSelector : String
  metaDesignNotesSelector : String
  metaExhibitionMediaSelector : String
  pictureParameters : PictureParameters

/-- A raw spreadsheet row: a total map from lower-cased column name to cell
value (a column that does not exist reads as `None`). -/
def Row : Type := String → Cell

/-- Modelled from the spec: the ambient state of the external resource
registry — the set of existing class names and the active class name. -/
structure VState where
  classes : List String
  active : String
deriving DecidableEq

/-- Modelled from the spec: `vs.GetObject(name)` — the resource lookup;
`true` stands for a non-zero handle (the resource exists). -/
def getObject (vst : VState) (nm : String) : Bool :=
  vst.classes.contains nm

/-- Modelled from the spec: `vs.NameClass(name)` — sets the active class,
creating the class first when it does not exist (the create-resource
collaborator). -/
def nameClass (vst : VState) (nm : String) : VState :=
  { classes := if vst.classes.contains nm then vst.classes else vst.classes ++ [nm]
    active := nm }

/-- Modelled from the spec: `vs.ActiveClass()` — the ambient active class. -/
def activeClass (vst : VState) : String :=
  vst.active

/-- The per-row working state of `get_worksheet_rows`: the shared output
record (created once, before the row loop, at source line 176), the registry
state, the shared metadata record, the four per-section message buffers
(source lines 186–189) and the row validity flag (line 190). -/
structure RowCtx where
  pic : PictureParameters
  vst : VState
  pictureRecord : PictureRecord
  imageMsg : String
  frameMsg : String
  matMsg : String
  glassMsg : String
  valid : Bool
deriving DecidableEq

/-- Which per-section message buffer a diagnostic goes to. -/
inductive MsgSection where
  | image | frame | matboard | glass
deriving DecidableEq

/-- Append a diagnostic to one section's message buffer. -/
def addMsg (sec : MsgSection) (ctx : RowCtx) (m : String) : RowCtx :=
  match sec with
  | MsgSection.image => { ctx with imageMsg := ctx.imageMsg ++ m }
  | MsgSection.frame => { ctx with frameMsg := ctx.frameMsg ++ m }
  | MsgSection.matboard => { ctx with matMsg := ctx.matMsg ++ m }
  | MsgSection.glass => { ctx with glassMsg := ctx.glassMsg ++ m }

/-- The resolved cell for a field with a manual fallback (e.g. source lines
232–235): the manual value is a string from `settings.pictureParameters`. -/
def manualOrCell (sel : String) (manual : String) (row : Row) : Cell :=
  if sel = "-- Manual" then Cell.str manual else row (strLower sel)

/-- One numeric detail field (the idiom of source lines 216–222): validate,
store `str(round(value, 3))` on success, otherwise append
`"- Invalid <label> (<cell>)"` to the section buffer and clear the row's
validity flag. -/
def numericStep (cell : Cell) (label : String)
    (set : PictureParameters → String → PictureParameters)
    (sec : MsgSection) (ctx : RowCtx) : RowCtx :=
  match numField cell with
  | some t => { ctx with pic := set ctx.pic t }
  | Option.none =>
      let c := addMsg sec ctx ("- Invalid " ++ label ++ " (" ++ formatCell cell ++ ")")
      { c with valid := false }

/-- One class-reference field resolved from a column (the idiom of source
lines 296–307): look up `lookupName`; on a hit store `cellStr`; on a miss
either create `cellStr` (restoring the previously active class, lines
299–301) or report `"- No such <label> (<cellStr>)"` and clear validity.
For the frame and matboard classes `lookupName` is the resolved cell, but
for the glass class the source passes `picture.glassClass` (line 458). -/
def classStep (createMissing : Bool) (lookupName : String) (cellStr : String)
    (label : String) (set : PictureParameters → String → PictureParameters)
    (sec : MsgSection) (ctx : RowCtx) : RowCtx :=
  if getObject ctx.vst lookupName then
    { ctx with pic := set ctx.pic cellStr }
  else if createMissing then
    let saved := activeClass ctx.vst
    let vst := nameClass (nameClass ctx.vst cellStr) saved
    { ctx with vst := vst, pic := set ctx.pic cellStr }
  else
    let c := addMsg sec ctx ("- No such " ++ label ++ " (" ++ cellStr ++ ")")
    { c with valid := false }

/-- The resolved `withImage` flag (source lines 206–213). -/
def resolvedWithImage (s : Settings) (row : Row) : String :=
  if s.withImageSelector = "-- Manual" then s.pictureParameters.withImage
  else presenceTruthy (row (strLower s.withImageSelector))

/-- The resolved `withFrame` flag (source lines 244–251). -/
def resolvedWithFrame (s : Settings) (row : Row) : String :=
  if s.withFrameSelector = "-- Manual" then s.pictureParameters.withFrame
  else presenceNotNone (row (strLower s.withFrameSelector))

/-- The resolved `withMatboard` flag (source lines 332–339). -/
def resolvedWithMatboard (s : Settings) (row : Row) : String :=
  if s.withMatboardSelector = "-- Manual" then s.pictureParameters.withMatboard
  else presenceTruthy (row (strLower s.withMatboardSelector))

/-- The resolved `withGlass` flag (source lines 433–440). -/
def resolvedWithGlass (s : Settings) (row : Row) : String :=
  if s.withGlassSelector = "-- Manual" then s.pictureParameters.withGlass
  else presenceTruthy (row (strLower s.withGlassSelector))

/-- Image detail fields (source lines 215–241), evaluated only when the
already-stored flag is `"True"`; width, height, then position. -/
def imageDetails (s : Settings) (row : Row) (ctx : RowCtx) : RowCtx :=
  if ctx.pic.withImage = "True" then
    numericStep (manualOrCell s.imagePositionSelector s.pictureParameters.imagePosition row)
      "Image Position" (fun p v => { p with imagePosition := v }) MsgSection.image
      (numericStep (row (strLower s.imageHeightSelector)) "Image Height"
        (fun p v => { p with imageHeight := v }) MsgSection.image
        (numericStep (row (strLower s.imageWidthSelector)) "Image Width"
          (fun p v => { p with imageWidth := v }) MsgSection.image ctx))
  else ctx

/-- Image section (source lines 205–241): store the resolved flag, then run
the detail fields. -/
def imageSection (s : Settings) (row : Row) (ctx : RowCtx) : RowCtx :=
  imageDetails s row { ctx with pic := { ctx.pic with withImage := resolvedWithImage s row } }

/-- Frame class field (source lines 292–307). -/
def frameClassStep (s : Settings) (row : Row) (ctx : RowCtx) : RowCtx :=
  if s.frameClassSelector = "-- Manual" then
    { ctx with pic := { ctx.pic with frameClass := s.pictureParameters.frameClass } }
  else
    classStep s.createMissingClasses (formatCell (row (strLower s.frameClassSelector)))
      (formatCell (row (strLower s.frameClassSelector))) "Frame Class"
      (fun p v => { p with frameClass := v }) MsgSection.frame ctx

/-- Frame detail fields (source lines 253–329), evaluated only when the
already-stored flag is `"True"`: width, height, thickness, depth, class,
texture scale, texture rotation.  Note line 273: the column name for the
thickness is read from `settings.pictureParameters`, not from `settings`. -/
def frameDetails (s : Settings) (row : Row) (ctx : RowCtx) : RowCtx :=
  if ctx.pic.withFrame = "True" then
    numericStep (manualOrCell s.frameTextureRotationSelector s.pictureParameters.frameTextureRotation row)
      "Frame Texture Rotation" (fun p v => { p with frameTextureRotation := v }) MsgSection.frame
      (numericStep (manualOrCell s.frameTextureScaleSelector s.pictureParameters.frameTextureScale row)
        "Frame Texture Scale" (fun p v => { p with frameTextureScale := v }) MsgSection.frame
        (frameClassStep s row
          (numericStep (manualOrCell s.frameDepthSelector s.pictureParameters.frameDepth row)
            "Frame Depth" (fun p v => { p with frameDepth := v }) MsgSection.frame
            (numericStep
              (if s.frameThicknessSelector = "-- Manual"
               then Cell.str s.pictureParameters.frameThickness
               else row (strLower s.pictureParameters.frameThicknessSelector))
              "Frame Thickness" (fun p v => { p with frameThickness := v }) MsgSection.frame
              (numericStep (row (strLower s.frameHeightSelector)) "Frame Height"
                (fun p v => { p with frameHeight := v }) MsgSection.frame
                (numericStep (row (strLower s.frameWidthSelector)) "Frame Width"
                  (fun p v => { p with frameWidth := v }) MsgSection.frame ctx))))))
  else ctx

/-- Frame section (source lines 243–329). -/
def frameSection (s : Settings) (row : Row) (ctx : RowCtx) : RowCtx :=
  frameDetails s row { ctx with pic := { ctx.pic with withFrame := resolvedWithFrame s row } }

/-- Matboard window width (source lines 358–368): on validation failure, fall
back to the already-derived image width when `withImage == "True"` (with an
informational message, the validity flag untouched), otherwise report an
error and clear validity. -/
def windowWidthStep (s : Settings) (row : Row) (ctx : RowCtx) : RowCtx :=
  match numField (row (strLower s.windowWidthSelector)) with
  | some t => { ctx with pic := { ctx.pic with windowWidth := t } }
  | Option.none =>
      if ctx.pic.withImage = "True" then
        { ctx with
            pic := { ctx.pic with windowWidth := ctx.pic.imageWidth }
            matMsg := ctx.matMsg ++ "- Missing window width, using image width instead" }
      else
        { ctx with
            matMsg := ctx.matMsg ++ "- Invalid Window Width ("
              ++ formatCell (row (strLower s.windowWidthSelector)) ++ ")"
            valid := false }

/-- Matboard window height (source lines 370–380), symmetric to the width. -/
def windowHeightStep (s : Settings) (row : Row) (ctx : RowCtx) : RowCtx :=
  match numField (row (strLower s.windowHeightSelector)) with
  | some t => { ctx with pic := { ctx.pic with windowHeight := t } }
  | Option.none =>
      if ctx.pic.withImage = "True" then
        { ctx with
            pic := { ctx.pic with windowHeight := ctx.pic.imageHeight }
            matMsg := ctx.matMsg ++ "- Missing window height, using image height instead" }
      else
        { ctx with
            matMsg := ctx.matMsg ++ "- Invalid Window Height ("
              ++ formatCell (row (strLower s.windowHeightSelector)) ++ ")"
            valid := false }

/-- Matboard class field (source lines 393–408). -/
def matboardClassStep (s : Settings) (row : Row) (ctx : RowCtx) : RowCtx :=
  if s.matboardClassSelector = "-- Manual" then
    { ctx with pic := { ctx.pic with matboardClass := s.pictureParameters.matboardClass } }
  else
    classStep s.createMissingClasses (formatCell (row (strLower s.matboardClassSelector)))
      (formatCell (row (strLower s.matboardClassSelector))) "Matboard Class"
      (fun p v => { p with matboardClass := v }) MsgSection.matboard ctx

/-- Matboard detail fields (source lines 341–430), evaluated only when the
already-stored flag is `"True"`: frame width and height are re-resolved
(their failure messages go to the frame buffer, lines 347 and 355), then the
window sizes with their image fallback, position, class and textures. -/
def matboardDetails (s : Settings) (row : Row) (ctx : RowCtx) : RowCtx :=
  if ctx.pic.withMatboard = "True" then
    numericStep (manualOrCell s.matboardTextureRotatSelector s.pictureParameters.matboardTextureRotat row)
      "Matboard Texture Rotation" (fun p v => { p with matboardTextureRotat := v }) MsgSection.matboard
      (numericStep (manualOrCell s.matboardTextureScaleSelector s.pictureParameters.matboardTextureScale row)
        "Matboard Texture Scale" (fun p v => { p with matboardTextureScale := v }) MsgSection.matboard
        (matboardClassStep s row
          (numericStep (manualOrCell s.matboardPositionSelector s.pictureParameters.matboardPosition row)
            "Matboard Position" (fun p v => { p with matboardPosition := v }) MsgSection.matboard
            (windowHeightStep s row
              (windowWidthStep s row
                (numericStep (row (strLower s.frameHeightSelector))
                  "Frame Height (needed for Matboard)"
                  (fun p v => { p with frameHeight := v }) MsgSection.frame
                  (numericStep (row (strLower s.frameWidthSelector))
                    "Frame Width (needed for Matboard)"
                    (fun p v => { p with frameWidth := v }) MsgSection.frame ctx)))))))
  else ctx

/-- Matboard section (source lines 331–430). -/
def matboardSection (s : Settings) (row : Row) (ctx : RowCtx) : RowCtx :=
  matboardDetails s row { ctx with pic := { ctx.pic with withMatboard := resolvedWithMatboard s row } }

/-- Glass class field (source lines 454–469).  Faithful to line 458: the
existence check is `vs.GetObject(picture.glassClass)` — the current value of
the shared record's field — not the cell value just resolved from the row. -/
def glassClassStep (s : Settings) (row : Row) (ctx : RowCtx) : RowCtx :=
  if s.glassClassSelector = "-- Manual" then
    { ctx with pic := { ctx.pic with glassClass := s.pictureParameters.glassClass } }
  else
    classStep s.createMissingClasses ctx.pic.glassClass
      (formatCell (row (strLower s.glassClassSelector))) "Glass Class"
      (fun p v => { p with glassClass := v }) MsgSection.glass ctx

/-- Glass detail fields (source lines 442–469), evaluated only when the
already-stored flag is `"True"`: position, then the class. -/
def glassDetails (s : Settings) (row : Row) (ctx : RowCtx) : RowCtx :=
  if ctx.pic.withGlass = "True" then
    glassClassStep s row
      (numericStep (manualOrCell s.glassPositionSelector s.pictureParameters.glassPosition row)
        "Glass Position" (fun p v => { p with glassPosition := v }) MsgSection.glass ctx)
  else ctx

/-- Glass section (source lines 432–469). -/
def glassSection (s : Settings) (row : Row) (ctx : RowCtx) : RowCtx :=
  glassDetails s row { ctx with pic := { ctx.pic with withGlass := resolvedWithGlass s row } }

/-- Python `folder_name.translate({ord(c): '_' for c in string.whitespace})`:
replace every whitespace character by an underscore. -/
def translateWs (s : String) : String :=
  String.mk (s.toList.map (fun c => if pyWsChars.contains c then '_' else c))

/-- Python `str.replace("__", "_")`: one left-to-right pass replacing each
non-overlapping occurrence of a double underscore by a single one. -/
def collapseUU : List Char → List Char
  | '_' :: '_' :: rest => '_' :: collapseUU rest
  | c :: rest => c :: collapseUU rest
  | [] => []

/-- Symbol section (source lines 471–483).  When the folder cell is falsy the
shared record's `symbolFolder` is left as it was. -/
def symbolSection (s : Settings) (row : Row) (ctx : RowCtx) : RowCtx :=
  if s.symbolCreateSymbol = "True" then
    let ctx := { ctx with pic := { ctx.pic with createSymbol := "True" } }
    if s.symbolFolderSelector = "-- Manual" then
      { ctx with pic := { ctx.pic with symbolFolder := s.symbolFolder } }
    else
      let folderCell := row (strLower s.symbolFolderSelector)
      if pyTruthy folderCell then
        { ctx with pic := { ctx.pic with symbolFolder :=
            (String.mk (collapseUU (translateWs (formatCell folderCell)).toList) ++ " Folder") } }
      else ctx
  else
    { ctx with pic := { ctx.pic with createSymbol := "False", symbolFolder := "" } }

/-- Class-assignment section (source lines 485–490). -/
def classSection (s : Settings) (row : Row) (ctx : RowCtx) : RowCtx :=
  if s.classAssignPictureClass = "True" then
    if s.classClassPictureSelector = "-- Manual" then
      { ctx with pic := { ctx.pic with pictureClass := s.pictureParameters.pictureClass } }
    else
      { ctx with pic := { ctx.pic with pictureClass :=
          (formatCell (row (strLower s.classClassPictureSelector))) } }
  else ctx

/-- Metadata section (source lines 492–525): every write goes to the shared
`settings.pictureRecord` object, none to the per-row output record. -/
def metaSection (s : Settings) (row : Row) (ctx : RowCtx) : RowCtx :=
  if s.metaImportMetadata = "True" then
    let r := ctx.pictureRecord
    let r := if ctx.pic.withImage = "True" then
        { r with imageSize :=
            "Height: " ++ ctx.pic.imageHeight ++ ", Width: " ++ ctx.pic.imageWidth }
      else r
    let r := if ctx.pic.withFrame = "True" || ctx.pic.withMatboard = "True" then
        { r with frameSize :=
            "Height: " ++ ctx.pic.frameHeight ++ ", Width: " ++ ctx.pic.frameWidth }
      else r
    let r := if ctx.pic.withMatboard = "True" then
        { r with windowSize :=
            "Height: " ++ ctx.pic.windowHeight ++ ", Width: " ++ ctx.pic.windowWidth }
      else r
    let r := if s.metaArtworkTitleSelector ≠ "-- Don't Import" then
        { r with artworkTitle := formatCell (row (strLower s.metaArtworkTitleSelector)) }
      else r
    let r := if s.metaAuthorNameSelector ≠ "-- Don't Import" then
        { r with authorName := formatCell (row (strLower s.metaAuthorNameSelector)) }
      else r
    let r := if s.metaArtworkCreationDateSelector ≠ "-- Don't Import" then
        { r with artworkCreationDate :=
            makeYearString (row (strLower s.metaArtworkCreationDateSelector)) }
      else r
    let r := if s.metaArtworkMediaSelector ≠ "-- Don't Import" then
        { r with artworkMedia := formatCell (row (strLower s.metaArtworkMediaSelector)) }
      else r
    let r := if s.metaRoomLocationSelector ≠ "-- Don't Import" then
        { r with roomLocation := formatCell (row (strLower s.metaRoomLocationSelector)) }
      else r
    let r := if s.metaArtworkSourceSelector ≠ "-- Don't Import" then
        { r with artworkSource := formatCell (row (strLower s.metaArtworkSourceSelector)) }
      else r
    let r := if s.metaRegistrationNumberSelector ≠ "-- Don't Import" then
        { r with registrationNumber :=
            formatCell (row (strLower s.metaRegistrationNumberSelector)) }
      else r
    let r := if s.metaAuthorBirthCountrySelector ≠ "-- Don't Import" then
        { r with authorBirthCountry :=
            formatCell (row (strLower s.metaAuthorBirthCountrySelector)) }
      else r
    let r := if s.metaAuthorBirthDateSelector ≠ "-- Don't Import" then
        { r with authorBirthDate :=
            makeYearString (row (strLower s.metaAuthorBirthDateSelector)) }
      else r
    let r := if s.metaAuthorDeathDateSelector ≠ "-- Don't Import" then
        { r with authorDeathDate :=
            makeYearString (row (strLower s.metaAuthorDeathDateSelector)) }
      else r
    let r := if s.metaDesignNotesSelector ≠ "-- Don't Import" then
        { r with designNotes := formatCell (row (strLower s.metaDesignNotesSelector)) }
      else r
    let r := if s.metaExhibitionMediaSelector ≠ "-- Don't Import" then
        { r with exhibitionMedia := formatCell (row (strLower s.metaExhibitionMediaSelector)) }
      else r
    { ctx with pictureRecord := r }
  else ctx

/-- The state carried across rows by the generator: registry state, shared
metadata record, and the single `PictureParameters` object that is created
once before the loop (source line 176) and mutated in place for every row. -/
structure RunState where
  vst : VState
  pictureRecord : PictureRecord
  picture : PictureParameters
deriving DecidableEq

/-- Whether Python `not picture_name` holds for the result of `to_string`
(source line 194): `None` and the empty string are falsy. -/
def pnameFalsy (o : Option String) : Bool :=
  o.getD "" == ""

/-- Whether a row's identity field resolves falsy for the given settings
(the combination of source lines 192–194). -/
def nameFalsyRow (s : Settings) (r : Row) : Bool :=
  pnameFalsy (toStringPy (r (strLower s.imageTextureSelector)))

/-- The diagnostic line for a row whose name could not be resolved
(source line 195). -/
def nameNotFoundMsg : String :=
  "UNKNOWN [Error] - Picture name not found\n"

/-- The row context at the start of a named row (source lines 186–190 and
200): fresh empty message buffers, validity `true`, and the shared record
with only its `pictureName` field overwritten. -/
def rowCtxInit (st : RunState) (pname : String) : RowCtx :=
  { pic := { st.picture with pictureName := pname }
    vst := st.vst
    pictureRecord := st.pictureRecord
    imageMsg := ""
    frameMsg := ""
    matMsg := ""
    glassMsg := ""
    valid := true }

/-- The section pipeline for a named row (source lines 205–525).  The dead
debug statement at lines 202–203 (`stop = True`) has no effect and is
omitted. -/
def processRowCore (s : Settings) (row : Row) (ctx : RowCtx) : RowCtx :=
  metaSection s row (classSection s row (symbolSection s row
    (glassSection s row (matboardSection s row
      (frameSection s row (imageSection s row ctx))))))

/-- The diagnostic line for an invalid row (source lines 528–529): the
resolved name, the literal `" * [Error]"`, then the image, frame, matboard
and glass buffers in that order, then a newline. -/
def errorLine (pname : String) (ctx : RowCtx) : String :=
  pname ++ " * [Error]" ++ ctx.imageMsg ++ ctx.frameMsg ++ ctx.matMsg ++ ctx.glassMsg ++ "\n"

/-- One iteration of the row loop of `get_worksheet_rows` (source lines
185–533): returns the successor state, the records yielded for this row in
yield order (each a snapshot of the shared record at its `yield`), and the
diagnostic lines written to the log file while processing it.  A row whose
name resolves falsy yields TWICE: once at line 198 inside the
`if not picture_name:` branch, and then again at line 533 — the loop-bottom
`yield picture` is a sibling of that if/else and runs on every iteration.
Nothing mutates the record between those two yields, so the two snapshots
are identical.  A named row yields once, at line 533. -/
def processRow (s : Settings) (st : RunState) (row : Row) :
    RunState × List PictureParameters × List String :=
  let nameCell := row (strLower s.imageTextureSelector)
  let pnameOpt := toStringPy nameCell
  if pnameFalsy pnameOpt then
    let pic := { st.picture with pictureName := "" }
    ({ st with picture := pic }, [pic, pic], [nameNotFoundMsg])
  else
    let pname := pnameOpt.getD ""
    let ctx := processRowCore s row (rowCtxInit st pname)
    if ctx.valid then
      ({ vst := ctx.vst, pictureRecord := ctx.pictureRecord, picture := ctx.pic },
       [ctx.pic], [])
    else
      let pic := { ctx.pic with pictureName := "" }
      ({ vst := ctx.vst, pictureRecord := ctx.pictureRecord, picture := pic },
       [pic], [errorLine pname ctx])

/-- The row loop of `get_worksheet_rows`: the lazy sequence of yielded
records, the final state, and the concatenated log lines, in input order. -/
def runRows (s : Settings) (st : RunState) : List Row → List PictureParameters × RunState × List String
  | [] => ([], st, [])
  | r :: rs =>
      let step := processRow s st r
      let rest := runRows s step.1 rs
      (step.2.1 ++ rest.1, rest.2.1, step.2.2 ++ rest.2.2)

/-- Build a row from an association list of lower-cased column names. -/
def rowOf (l : List (String × Cell)) : Row :=
  fun k => (((l.find? (fun p => p.1 == k)).map Prod.snd).getD Cell.none)

/-- A settings fixture: every field driven by a two-letter column, all
session flags off, manual values default except the frame-thickness column
name, which source line 273 reads from `pictureParameters`. -/
def baseS : Settings :=
  { imageTextureSelector := "name"
    withImageSelector := "wi"
    imageWidthSelector := "iw"
    imageHeightSelector := "ih"
    imagePositionSelector := "ip"
    withFrameSelector := "wf"
    frameWidthSelector := "fw"
    frameHeightSelector := "fh"
    frameThicknessSelector := "ft"
    frameDepthSelector := "fd"
    frameClassSelector := "fc"
    frameTextureScaleSelector := "fs"
    frameTextureRotationSelector := "fr"
    withMatboardSelector := "wm"
    windowWidthSelector := "ww"
    windowHeightSelector := "wh"
    matboardPositionSelector := "mp"
    matboardClassSelector := "mc"
    matboardTextureScaleSelector := "ms"
    matboardTextureRotatSelector := "mr"
    withGlassSelector := "wg"
    glassPositionSelector := "gp"
    glassClassSelector := "gc"
    createMissingClasses := false
    symbolCreateSymbol := "False"
    symbolFolderSelector := "sf"
    symbolFolder := ""
    classAssignPictureClass := "False"
    classClassPictureSelector := "cc"
    metaImportMetadata := "False"
    metaArtworkTitleSelector := "-- Don't Import"
    metaAuthorNameSelector := "-- Don't Import"
    metaArtworkCreationDateSelector := "-- Don't Import"
    metaArtworkMediaSelector := "-- Don't Import"
    metaRoomLocationSelector := "-- Don't Import"
    metaArtworkSourceSelector := "-- Don't Import"
    metaRegistrationNumberSelector := "-- Don't Import"
    metaAuthorBirthCountrySelector := "-- Don't Import"
    metaAuthorBirthDateSelector := "-- Don't Import"
    metaAuthorDeathDateSelector := "-- Don't Import"
    metaDesignNotesSelector := "-- Don't Import"
    metaExhibitionMediaSelector := "-- Don't Import"
    pictureParameters := { frameThicknessSelector := "ft" } }

/-- An initial generator state: empty registry, default records. -/
def st0 : RunState :=
  { vst := { classes := [], active := "" }, pictureRecord := {}, picture := {} }

/-- A row carrying an image section with integer cells. -/
def rowA : Row :=
  rowOf [("name", Cell.str "A"), ("wi", Cell.str "Yes"),
         ("iw", Cell.int 5), ("ih", Cell.int 6), ("ip", Cell.int 0)]

/-- A row with every section column absent (all read as `None`). -/
def rowB : Row :=
  rowOf [("name", Cell.str "B")]

/-- A row with no columns at all: every lookup is `None`, so the picture
name cannot be resolved. -/
def rowN : Row :=
  rowOf []

/-- A row exercising the C3 falsy-set question: `withImage` column holds the
integer zero. -/
def r3 : Row :=
  rowOf [("name", Cell.str "P"), ("wi", Cell.int 0)]

/-- Registry for the glass-class scenarios: the resolved class `"Smoke"`
exists, the active class is `"Act"`, the shared record still holds its
default empty `glassClass`. -/
def st6 : RunState :=
  { vst := { classes := ["Smoke", "Act"], active := "Act" }, pictureRecord := {}, picture := {} }

/-- A glass row whose class column resolves to the existing `"Smoke"`. -/
def r6 : Row :=
  rowOf [("name", Cell.str "P"), ("wg", Cell.str "Yes"),
         ("gp", Cell.int 1), ("gc", Cell.str "Smoke")]

/-- Settings with auto-creation of missing classes enabled. -/
def s7 : Settings :=
  { baseS with createMissingClasses := true }

/-- Registry for the auto-create scenario: `"Stale"` and the active class
`"Act"` exist; `"Oak"` does not. -/
def st7 : RunState :=
  { vst := { classes := ["Stale", "Act"], active := "Act" }, pictureRecord := {}, picture := {} }

/-- First glass row: resolves class `"Stale"` (exists). -/
def r71 : Row :=
  rowOf [("name", Cell.str "P1"), ("wg", Cell.str "Yes"),
         ("gp", Cell.int 1), ("gc", Cell.str "Stale")]

/-- Second glass row: resolves class `"Oak"` (missing). -/
def r72 : Row :=
  rowOf [("name", Cell.str "P2"), ("wg", Cell.str "Yes"),
         ("gp", Cell.int 1), ("gc", Cell.str "Oak")]

/-- Settings selecting the image flag and image position manually, with an
unparseable manual position value. -/
def s9 : Settings :=
  { baseS with
      withImageSelector := "-- Manual"
      imagePositionSelector := "-- Manual"
      pictureParameters :=
        { withImage := "True", imagePosition := "abc", frameThicknessSelector := "ft" } }

/-- Settings like `s9` but with a manually selected frame class name. -/
def s9m : Settings :=
  { s9 with
      frameClassSelector := "-- Manual"
      pictureParameters := { s9.pictureParameters with frameClass := "Oak" } }

/-- A row with a name and valid image width/height cells. -/
def r9 : Row :=
  rowOf [("name", Cell.str "P"), ("iw", Cell.int 3), ("ih", Cell.int 4)]

/-- A row context mid-derivation: image processed (width `"12.5"`, height
`"9"`), row still valid. -/
def ctxW : RowCtx :=
  { pic := { withImage := "True", imageWidth := "12.5", imageHeight := "9" }
    vst := { classes := [], active := "" }
    pictureRecord := {}
    imageMsg := ""
    frameMsg := ""
    matMsg := ""
    glassMsg := ""
    valid := true }

/-- Settings with metadata import enabled and the artwork title driven by
column `"at"`; otherwise identical to `baseS`. -/
def sMeta : Settings :=
  { baseS with metaImportMetadata := "True", metaArtworkTitleSelector := "at" }

/-- The image row extended with an artwork title cell. -/
def rMeta : Row :=
  rowOf [("name", Cell.str "A"), ("wi", Cell.str "Yes"), ("iw", Cell.int 5),
         ("ih", Cell.int 6), ("ip", Cell.int 0), ("at", Cell.str "Mona")]

/-- A matboard row with no image: the window sizes cannot fall back, and the
matboard class `"MC"` is unknown, so the row collects three diagnostics. -/
def rW : Row :=
  rowOf [("name", Cell.str "W"), ("wm", Cell.str "Yes"), ("fw", Cell.int 2),
         ("fh", Cell.int 3), ("mp", Cell.int 1), ("ms", Cell.int 1),
         ("mr", Cell.int 1), ("mc", Cell.str "MC")]

theorem addMsg_pic (sec : MsgSection) (ctx : RowCtx) (m : String) :
    (addMsg sec ctx m).pic = ctx.pic := by
  cases sec <;> rfl

theorem numericStep_imageWidth (cell : Cell) (label : String)
    (set : PictureParameters → String → PictureParameters) (sec : MsgSection) (ctx : RowCtx)
    (hset : ∀ p v, (set p v).imageWidth = p.imageWidth) :
    (numericStep cell label set sec ctx).pic.imageWidth = ctx.pic.imageWidth := by
  unfold numericStep
  cases hc : numField cell
  · simp [hc, addMsg_pic]
  · simp [hc, hset]

theorem classStep_pic (cm : Bool) (ln cs label : String)
    (set : PictureParameters → String → PictureParameters) (sec : MsgSection) (ctx : RowCtx) :
    (classStep cm ln cs label set sec ctx).pic =
      (if getObject ctx.vst ln || cm then set ctx.pic cs else ctx.pic) := by
  unfold classStep
  cases h1 : getObject ctx.vst ln <;> cases h2 : cm <;> simp [h1, h2, addMsg_pic]

theorem frameClassStep_imageWidth (s : Settings) (row : Row) (ctx : RowCtx) :
    (frameClassStep s row ctx).pic.imageWidth = ctx.pic.imageWidth := by
  unfold frameClassStep
  split
  · rfl
  · rw [classStep_pic]
    split <;> rfl

theorem matboardClassStep_imageWidth (s : Settings) (row : Row) (ctx : RowCtx) :
    (matboardClassStep s row ctx).pic.imageWidth = ctx.pic.imageWidth := by
  unfold matboardClassStep
  split
  · rfl
  · rw [classStep_pic]
    split <;> rfl

theorem glassClassStep_imageWidth (s : Settings) (row : Row) (ctx : RowCtx) :
    (glassClassStep s row ctx).pic.imageWidth = ctx.pic.imageWidth := by
  unfold glassClassStep
  split
  · rfl
  · rw [classStep_pic]
    split <;> rfl

theorem windowWidthStep_imageWidth (s : Settings) (row : Row) (ctx : RowCtx) :
    (windowWidthStep s row ctx).pic.imageWidth = ctx.pic.imageWidth := by
  unfold windowWidthStep
  cases hc : numField (row (strLower s.windowWidthSelector))
  · simp only [hc]
    split <;> rfl
  · simp only [hc]

theorem windowHeightStep_imageWidth (s : Settings) (row : Row) (ctx : RowCtx) :
    (windowHeightStep s row ctx).pic.imageWidth = ctx.pic.imageWidth := by
  unfold windowHeightStep
  cases hc : numField (row (strLower s.windowHeightSelector))
  · simp only [hc]
    split <;> rfl
  · simp only [hc]

theorem imageDetails_skip (s : Settings) (row : Row) (ctx : RowCtx)
    (h : ctx.pic.withImage ≠ "True") :
    imageDetails s row ctx = ctx := by
  unfold imageDetails
  rw [if_neg h]

theorem imageSection_skip (s : Settings) (row : Row) (ctx : RowCtx)
    (h : resolvedWithImage s row ≠ "True") :
    (imageSection s row ctx).pic.imageWidth = ctx.pic.imageWidth := by
  have h2 : ({ ctx with pic := { ctx.pic with withImage := resolvedWithImage s row } }
      : RowCtx).pic.withImage ≠ "True" := by simpa using h
  unfold imageSection
  rw [imageDetails_skip _ _ _ h2]

theorem frameSection_imageWidth (s : Settings) (row : Row) (ctx : RowCtx) :
    (frameSection s row ctx).pic.imageWidth = ctx.pic.imageWidth := by
  unfold frameSection frameDetails
  split
  · rw [numericStep_imageWidth, numericStep_imageWidth, frameClassStep_imageWidth,
      numericStep_imageWidth, numericStep_imageWidth, numericStep_imageWidth,
      numericStep_imageWidth]
    all_goals exact fun p v => rfl
  · rfl

theorem matboardSection_imageWidth (s : Settings) (row : Row) (ctx : RowCtx) :
    (matboardSection s row ctx).pic.imageWidth = ctx.pic.imageWidth := by
  unfold matboardSection matboardDetails
  split
  · rw [numericStep_imageWidth, numericStep_imageWidth, matboardClassStep_imageWidth,
      numericStep_imageWidth, windowHeightStep_imageWidth, windowWidthStep_imageWidth,
      numericStep_imageWidth, numericStep_imageWidth]
    all_goals exact fun p v => rfl
  · rfl

theorem glassSection_imageWidth (s : Settings) (row : Row) (ctx : RowCtx) :
    (glassSection s row ctx).pic.imageWidth = ctx.pic.imageWidth := by
  unfold glassSection glassDetails
  split
  · rw [glassClassStep_imageWidth, numericStep_imageWidth]
    all_goals exact fun p v => rfl
  · rfl

theorem symbolSection_imageWidth (s : Settings) (row : Row) (ctx : RowCtx) :
    (symbolSection s row ctx).pic.imageWidth = ctx.pic.imageWidth := by
  simp only [symbolSection]
  repeat' split
  all_goals rfl

theorem classSection_imageWidth (s : Settings) (row : Row) (ctx : RowCtx) :
    (classSection s row ctx).pic.imageWidth = ctx.pic.imageWidth := by
  simp only [classSection]
  repeat' split
  all_goals rfl

theorem metaSection_pic (s : Settings) (row : Row) (ctx : RowCtx) :
    (metaSection s row ctx).pic = ctx.pic := by
  unfold metaSection
  split <;> rfl

theorem metaSection_vst (s : Settings) (row : Row) (ctx : RowCtx) :
    (metaSection s row ctx).vst = ctx.vst := by
  unfold metaSection
  split <;> rfl

theorem metaSection_valid (s : Settings) (row : Row) (ctx : RowCtx) :
    (metaSection s row ctx).valid = ctx.valid := by
  unfold metaSection
  split <;> rfl

theorem processRow_length (s : Settings) (st : RunState) (r : Row) :
    (processRow s st r).2.1.length = if nameFalsyRow s r = true then 2 else 1 := by
  by_cases h : pnameFalsy (toStringPy (r (strLower s.imageTextureSelector))) = true
  · simp [processRow, nameFalsyRow, h]
  · simp [processRow, nameFalsyRow, h]
    split <;> rfl

theorem runRows_length (s : Settings) (st : RunState) (rows : List Row) :
    (runRows s st rows).1.length = rows.length + rows.countP (nameFalsyRow s) := by
  induction rows generalizing st with
  | nil => rfl
  | cons a l ih =>
      have h1 : (runRows s st (a :: l)).1 =
          (processRow s st a).2.1 ++ (runRows s (processRow s st a).1 l).1 := rfl
      rw [h1, List.length_append, processRow_length, ih, List.countP_cons, List.length_cons]
      by_cases h : nameFalsyRow s a = true
      · rw [if_pos h, if_pos h]
        omega
      · rw [if_neg h, if_neg h]
        omega

/-- C1 counterexample: a single input row whose name column is absent yields
TWO records — the early yield at source line 198 is followed by the
loop-bottom yield at line 533, a sibling of the if/else that runs on every
iteration — so the output sequence is longer than the input row list. -/
theorem claim_c1_counterexample :
    (runRows baseS st0 [rowN]).1.length = 2 ∧ [rowN].length = 1 := by
  exact ⟨by decide, by decide⟩

/-- C1 (amended): a row whose name resolves to non-empty text yields exactly
one record; a row whose identity field resolves falsy writes a single
"picture name not found" diagnostic and yields TWO identical records with
empty `pictureName` (line 198's yield falls through to line 533's), and the
sequence continues — so the output length equals the input row count plus
the number of falsy-name rows. -/
theorem claim_c1 (s : Settings) (st st' st'' : RunState) (rows : List Row) (r r' : Row)
    (hf : pnameFalsy (toStringPy (r (strLower s.imageTextureSelector))) = true)
    (hn : pnameFalsy (toStringPy (r' (strLower s.imageTextureSelector))) = false) :
    (runRows s st rows).1.length = rows.length + rows.countP (nameFalsyRow s) ∧
    (processRow s st' r).2.1 =
      [{ st'.picture with pictureName := "" }, { st'.picture with pictureName := "" }] ∧
    (processRow s st' r).2.2 = [nameNotFoundMsg] ∧
    (processRow s st'' r').2.1.length = 1 := by
  refine ⟨runRows_length s st rows, ?_, ?_, ?_⟩
  · simp [processRow, hf]
  · simp [processRow, hf]
  · rw [processRow_length]
    simp [nameFalsyRow, hn]

/-- Witness for C1 at concrete inputs: the falsy-name row `rowN` yields the
sentinel record twice with one diagnostic; the named row `rowB` yields once;
a falsy-plus-named run yields three records from two rows. -/
theorem claim_c1_witness :
    (runRows baseS st0 [rowN, rowA]).1.length = 3 ∧
    (processRow baseS st0 rowN).2.1 =
      [{ st0.picture with pictureName := "" }, { st0.picture with pictureName := "" }] ∧
    (processRow baseS st0 rowN).2.2 = [nameNotFoundMsg] ∧
    (processRow baseS st0 rowB).2.1.length = 1 := by
  have h := claim_c1 baseS st0 st0 st0 [rowN, rowA] rowN rowB (by decide) (by decide)
  refine ⟨?_, h.2.1, h.2.2.1, h.2.2.2⟩
  rw [h.1]
  decide

/-- C2 counterexample: the output record is NOT constructed fresh per row and
does NOT depend only on the row and the Settings.  Processing `rowB` (whose
image column is absent) directly after `rowA` yields a record whose
`imageWidth` is `"5"` — `rowA`'s value — while processing the identical
`rowB` with identical settings from the initial state yields `""`. -/
theorem claim_c2_counterexample :
    ((runRows baseS st0 [rowA, rowB]).1.getD 1 {}).imageWidth = "5" ∧
    ((runRows baseS st0 [rowB]).1.getD 0 {}).imageWidth = "" ∧
    rowB (strLower baseS.imageWidthSelector) = Cell.none := by
  refine ⟨by decide, by decide, by decide⟩

/-- C2 amended: a single `PictureParameters` object is created once before
the row loop and mutated in place, so a yielded record depends on the row,
the Settings, and the record state left behind by earlier rows: whenever a
row does not process the image section (its resolved `withImage` flag is not
`"True"`), the yielded record's `imageWidth` is whatever the previous rows
left in the shared record. -/
theorem claim_c2_amended (s : Settings) (st : RunState) (row : Row)
    (h : resolvedWithImage s row ≠ "True") :
    ∀ p ∈ (processRow s st row).2.1, p.imageWidth = st.picture.imageWidth := by
  have hcore : ∀ pname, (processRowCore s row (rowCtxInit st pname)).pic.imageWidth
      = st.picture.imageWidth := by
    intro pname
    unfold processRowCore
    rw [metaSection_pic, classSection_imageWidth, symbolSection_imageWidth,
      glassSection_imageWidth, matboardSection_imageWidth, frameSection_imageWidth,
      imageSection_skip _ _ _ h]
    rfl
  intro p hp
  simp only [processRow] at hp
  split at hp
  · simp at hp
    subst hp
    rfl
  · split at hp
    · simp at hp
      subst hp
      exact hcore _
    · simp at hp
      subst hp
      exact hcore _

/-- Witness for C2 amended: `rowB` does not trigger the image section, so the
record it yields keeps the `imageWidth` stored in the incoming state. -/
theorem claim_c2_amended_witness :
    ((processRow baseS
      { st0 with picture := { st0.picture with imageWidth := "5" } } rowB).2.1.getD 0 {}).imageWidth
      = "5" := by
  have h := claim_c2_amended baseS
    { st0 with picture := { st0.picture with imageWidth := "5" } } rowB (by decide)
  exact h _ (by decide)

/-- C3 counterexample: the four-way falsy set does not hold for `withImage`.
On a row whose `withImage` column holds the integer `0` — which is none of
null, `""`, `"False"`, `"No"` — the yielded flag is `"False"`, not `"True"`
as the claim requires (while the `withFrame` parse of the same value is
`"True"`). -/
theorem claim_c3_counterexample :
    ((processRow baseS st0 r3).2.1.getD 0 {}).withImage = "False" ∧
    presenceNotNone (Cell.int 0) = "True" := by
  exact ⟨by decide, by decide⟩

/-- C3 amended: `withFrame` is set to `"False"` exactly on null, `""`,
`"False"`, `"No"`; but `withImage`, `withMatboard` and `withGlass` use Python
truthiness first, so their flag is `"False"` exactly on that set extended by
numeric zero. -/
theorem claim_c3_amended (c : Cell) :
    (presenceNotNone c = "False" ↔
      c = Cell.none ∨ c = Cell.str "" ∨ c = Cell.str "False" ∨ c = Cell.str "No") ∧
    (presenceTruthy c = "False" ↔
      c = Cell.none ∨ c = Cell.str "" ∨ c = Cell.str "False" ∨ c = Cell.str "No" ∨
      c = Cell.int 0 ∨ c = Cell.float 0) := by
  cases c with
  | none => simp [presenceTruthy, presenceNotNone, pyTruthy, cellEqStr, isNoneCell]
  | str t =>
      by_cases h1 : t = "" <;> by_cases h2 : t = "False" <;> by_cases h3 : t = "No" <;>
        simp [presenceTruthy, presenceNotNone, pyTruthy, cellEqStr, isNoneCell, h1, h2, h3]
  | int n =>
      by_cases h : n = 0 <;>
        simp [presenceTruthy, presenceNotNone, pyTruthy, cellEqStr, isNoneCell, h]
  | float q =>
      by_cases h : q = 0 <;>
        simp [presenceTruthy, presenceNotNone, pyTruthy, cellEqStr, isNoneCell, h,
          Rat.num_eq_zero]

/-- C4 counterexample: a validated float cell holding `7.0` is rendered by
`str(round(value, 3))` as `"7.0"`, not `"7"`: only the picture-name path
(`to_string`) drops the fractional part of integral floats, the numeric
detail fields never do. -/
theorem claim_c4_counterexample :
    numField (Cell.float (mkRat 7 1)) = some "7.0" ∧ ("7.0" : String) ≠ "7" := by
  exact ⟨by decide, by decide⟩

theorem pyRound3Milli_intCast (z : ℤ) : pyRound3Milli ((z : ℚ)) = 1000 * z := by
  unfold pyRound3Milli
  rw [Rat.num_intCast, Rat.den_intCast]
  norm_num [Int.fdiv_one]

theorem pyFloatStrMilli_thousand (z : ℤ) :
    pyFloatStrMilli (1000 * z) = pyIntStr z ++ ".0" := by
  have habs : (1000 * z).natAbs = 1000 * z.natAbs := by
    rw [Int.natAbs_mul]
    norm_num
  have hdiv : (1000 * z).natAbs / 1000 = z.natAbs := by
    rw [habs]; exact Nat.mul_div_cancel_left _ (by norm_num)
  have hmod : (1000 * z).natAbs % 1000 = 0 := by
    rw [habs]; exact Nat.mul_mod_right 1000 _
  have hsign : (1000 * z < 0) ↔ z < 0 := by omega
  unfold pyFloatStrMilli pyIntStr
  by_cases hz : z < 0 <;> simp [hdiv, hmod, hsign, hz]

theorem renderNum_intFloat (z : ℤ) :
    renderNum (PyNum.float ((z : ℚ))) = pyIntStr z ++ ".0" := by
  show pyFloatStrMilli (pyRound3Milli ((z : ℚ))) = _
  rw [pyRound3Milli_intCast, pyFloatStrMilli_thousand]

/-- C4 amended: validated numeric detail fields are rendered by
`str(round(value, 3))`: an `int` cell renders as a plain integer (`7` →
`"7"`), `7.250` renders as `"7.25"` and `7.1234567` as `"7.123"`, but an
integer-valued *float* keeps its fractional part — `7.0` renders as `"7.0"`,
and in general the float with value `z` renders as `str(z) ++ ".0"`. -/
theorem claim_c4_amended :
    numField (Cell.int 7) = some "7" ∧
    numField (Cell.float (mkRat 29 4)) = some "7.25" ∧
    numField (Cell.float (mkRat 71234567 10000000)) = some "7.123" ∧
    numField (Cell.float (mkRat 7 1)) = some "7.0" ∧
    ∀ z : ℤ, numField (Cell.float ((z : ℚ))) = some (pyIntStr z ++ ".0") := by
  refine ⟨by decide, by decide, by decide, by decide, ?_⟩
  intro z
  show some (renderNum (PyNum.float ((z : ℚ)))) = _
  rw [renderNum_intFloat]

/-- C5: in the matboard section, when the window width (resp. height) cell
fails numeric validation and `withImage == "True"`, the output window width
(resp. height) is the already-derived image width (resp. height), only the
informational message is appended and the validity flag is untouched; when
instead `withImage ≠ "True"`, an error message is appended and the row is
marked invalid. -/
theorem claim_c5 (s : Settings) (row : Row) (ctx : RowCtx)
    (hw : numField (row (strLower s.windowWidthSelector)) = Option.none)
    (hh : numField (row (strLower s.windowHeightSelector)) = Option.none) :
    (ctx.pic.withImage = "True" →
      (windowWidthStep s row ctx).pic.windowWidth = ctx.pic.imageWidth ∧
      (windowWidthStep s row ctx).valid = ctx.valid ∧
      (windowWidthStep s row ctx).matMsg =
        ctx.matMsg ++ "- Missing window width, using image width instead" ∧
      (windowHeightStep s row ctx).pic.windowHeight = ctx.pic.imageHeight ∧
      (windowHeightStep s row ctx).valid = ctx.valid ∧
      (windowHeightStep s row ctx).matMsg =
        ctx.matMsg ++ "- Missing window height, using image height instead") ∧
    (ctx.pic.withImage ≠ "True" →
      (windowWidthStep s row ctx).valid = false ∧
      (windowWidthStep s row ctx).matMsg = ctx.matMsg ++ "- Invalid Window Width ("
        ++ formatCell (row (strLower s.windowWidthSelector)) ++ ")" ∧
      (windowHeightStep s row ctx).valid = false) := by
  constructor <;> intro h <;>
    simp [windowWidthStep, windowHeightStep, hw, hh, h]

/-- Witness for C5 at concrete inputs: with `withImage = "True"`, image width
`"12.5"` and an absent window width column, the window width becomes
`"12.5"` and the row stays valid. -/
theorem claim_c5_witness :
    (windowWidthStep baseS rowN ctxW).pic.windowWidth = "12.5" ∧
    (windowWidthStep baseS rowN ctxW).valid = true ∧
    (windowHeightStep baseS rowN ctxW).pic.windowHeight = "9" := by
  have h := (claim_c5 baseS rowN ctxW (by decide) (by decide)).1 (by decide)
  exact ⟨h.1, h.2.1.trans (by decide), h.2.2.2.1⟩

/-- C6 (code bug): with `createMissingClasses` disabled, a glass row whose
class column resolves to `"Smoke"` — which exists in the registry — still
produces `"- No such Glass Class (Smoke)"` and invalidates the row, and the
output `glassClass` stays at its stale value `""` instead of `"Smoke"`,
because source line 458 checks `vs.GetObject(picture.glassClass)` instead of
the resolved cell value. -/
theorem claim_c6 :
    getObject st6.vst "Smoke" = true ∧
    r6 (strLower baseS.glassClassSelector) = Cell.str "Smoke" ∧
    (processRow baseS st6 r6).2.2 = ["P * [Error]- No such Glass Class (Smoke)\n"] ∧
    ((processRow baseS st6 r6).2.1.getD 0 {}).glassClass = "" := by
  refine ⟨by decide, by decide, by decide, by decide⟩

/-- C7 (code bug): with `createMissingClasses` enabled, the glass class
`"Oak"` resolved from the second row is missing from the registry, yet the
create collaborator is never invoked for it — the registry is unchanged
after the run — because the existence check of source line 458 consults the
stale `picture.glassClass` (here `"Stale"`, set by the first row), which
exists.  The output field still becomes `"Oak"`. -/
theorem claim_c7 :
    s7.createMissingClasses = true ∧
    r72 (strLower s7.glassClassSelector) = Cell.str "Oak" ∧
    getObject st7.vst "Oak" = false ∧
    ((runRows s7 st7 [r71, r72]).1.getD 1 {}).glassClass = "Oak" ∧
    (runRows s7 st7 [r71, r72]).2.1.vst.classes = ["Stale", "Act"] ∧
    (runRows s7 st7 [r71, r72]).2.1.vst.active = "Act" := by
  refine ⟨by decide, by decide, by decide, by decide, by decide, by decide⟩

/-- C8: a named row that fails any field-level validation writes exactly one
diagnostic line — the resolved picture name, `" * [Error]"`, then the image,
frame, matboard and glass message buffers in that fixed order, then a
newline — and the yielded record carries the sentinel `pictureName = ""`. -/
theorem claim_c8 (s : Settings) (st : RunState) (row : Row)
    (hn : pnameFalsy (toStringPy (row (strLower s.imageTextureSelector))) = false)
    (hv : (processRowCore s row
        (rowCtxInit st ((toStringPy (row (strLower s.imageTextureSelector))).getD ""))).valid
      = false) :
    (processRow s st row).2.2 =
      [((toStringPy (row (strLower s.imageTextureSelector))).getD "") ++ " * [Error]"
        ++ (processRowCore s row
            (rowCtxInit st ((toStringPy (row (strLower s.imageTextureSelector))).getD ""))).imageMsg
        ++ (processRowCore s row
            (rowCtxInit st ((toStringPy (row (strLower s.imageTextureSelector))).getD ""))).frameMsg
        ++ (processRowCore s row
            (rowCtxInit st ((toStringPy (row (strLower s.imageTextureSelector))).getD ""))).matMsg
        ++ (processRowCore s row
            (rowCtxInit st ((toStringPy (row (strLower s.imageTextureSelector))).getD ""))).glassMsg
        ++ "\n"] ∧
    (processRow s st row).2.1.length = 1 ∧
    ((processRow s st row).2.1.getD 0 {}).pictureName = "" := by
  refine ⟨?_, ?_, ?_⟩ <;> simp [processRow, hn, hv, errorLine]

/-- Witness for C8 at a concrete input: the matboard row `rW` fails three
validations; one line is logged — name, error marker, then the (empty)
image and frame buffers followed by the matboard buffer — and the record is
yielded with the empty-name sentinel. -/
theorem claim_c8_witness :
    (processRow baseS st0 rW).2.2 =
      ["W * [Error]- Invalid Window Width (None)- Invalid Window Height (None)- No such Matboard Class (MC)\n"] ∧
    ((processRow baseS st0 rW).2.1.getD 0 {}).pictureName = "" := by
  have h := claim_c8 baseS st0 rW (by decide) (by decide)
  refine ⟨?_, h.2.2⟩
  rw [h.1]
  decide

/-- C9 counterexample: a Manual-selected numeric detail field IS re-validated.
With `imagePosition` selected manually and the manual value `"abc"`, the row
produces `"- Invalid Image Position (abc)"` and is marked invalid (sentinel
name in the yielded record), contradicting the claim that manual values are
used without re-validation. -/
theorem claim_c9_counterexample :
    s9.imagePositionSelector = "-- Manual" ∧
    (processRow s9 st0 r9).2.2 = ["P * [Error]- Invalid Image Position (abc)\n"] ∧
    ((processRow s9 st0 r9).2.1.getD 0 {}).pictureName = "" := by
  refine ⟨by decide, by decide, by decide⟩

/-- C9 amended: a Manual selector substitutes the manual value but numeric
detail fields validate it exactly like a column value — an unparseable
manual value yields an "Invalid …" message and invalidates the row — while
class-reference fields (and presence flags) use the manual value directly,
with no existence check, no message and no validity change. -/
theorem claim_c9_amended (s : Settings) (row : Row) (ctx : RowCtx)
    (hsel : s.imagePositionSelector = "-- Manual")
    (hbad : numField (Cell.str s.pictureParameters.imagePosition) = Option.none) :
    ((numericStep (manualOrCell s.imagePositionSelector s.pictureParameters.imagePosition row)
        "Image Position" (fun p v => { p with imagePosition := v }) MsgSection.image ctx).valid
      = false ∧
     (numericStep (manualOrCell s.imagePositionSelector s.pictureParameters.imagePosition row)
        "Image Position" (fun p v => { p with imagePosition := v }) MsgSection.image ctx).imageMsg
      = ctx.imageMsg ++ "- Invalid Image Position (" ++ s.pictureParameters.imagePosition ++ ")") ∧
    (s.frameClassSelector = "-- Manual" →
      (frameClassStep s row ctx).pic.frameClass = s.pictureParameters.frameClass ∧
      (frameClassStep s row ctx).valid = ctx.valid ∧
      (frameClassStep s row ctx).frameMsg = ctx.frameMsg) := by
  have hcell : manualOrCell s.imagePositionSelector s.pictureParameters.imagePosition row
      = Cell.str s.pictureParameters.imagePosition := by
    simp [manualOrCell, hsel]
  refine ⟨?_, ?_⟩
  · rw [hcell]
    refine ⟨?_, ?_⟩ <;> simp [numericStep, hbad, addMsg, formatCell, String.append_assoc]
  · intro hm
    refine ⟨?_, ?_, ?_⟩ <;> simp [frameClassStep, hm]

/-- Witness for C9 amended at concrete inputs: the manual image position
`"abc"` invalidates the row context, while the manual frame class `"Oak"` is
stored without any registry check. -/
theorem claim_c9_amended_witness :
    (numericStep (manualOrCell s9m.imagePositionSelector s9m.pictureParameters.imagePosition r9)
      "Image Position" (fun p v => { p with imagePosition := v }) MsgSection.image ctxW).valid
      = false ∧
    (frameClassStep s9m r9 ctxW).pic.frameClass = "Oak" := by
  have h := claim_c9_amended s9m r9 ctxW (by decide) (by decide)
  exact ⟨h.1.1, (h.2 (by decide)).1.trans (by decide)⟩

/-- C10: the metadata section writes only to the shared
`settings.pictureRecord` state — it never changes the per-row output record,
the registry state or the validity flag, and with the import flag off it
does not even touch the shared record.  Concretely, with metadata import
enabled the shared record receives the sizes and title derived from the
current row, while the yielded record is identical to the one produced with
metadata import disabled. -/
theorem claim_c10 (s : Settings) (row : Row) (ctx : RowCtx) :
    (metaSection s row ctx).pic = ctx.pic ∧
    (metaSection s row ctx).vst = ctx.vst ∧
    (metaSection s row ctx).valid = ctx.valid ∧
    (s.metaImportMetadata ≠ "True" →
      (metaSection s row ctx).pictureRecord = ctx.pictureRecord) ∧
    (processRow sMeta st0 rMeta).1.pictureRecord.imageSize = "Height: 6, Width: 5" ∧
    (processRow sMeta st0 rMeta).1.pictureRecord.artworkTitle = "Mona" ∧
    (processRow sMeta st0 rMeta).2.1 = (processRow baseS st0 rMeta).2.1 := by
  refine ⟨metaSection_pic s row ctx, metaSection_vst s row ctx, metaSection_valid s row ctx,
    ?_, by decide, by decide, by decide⟩
  intro h
  simp [metaSection, h]

/-- Witness for C10 at concrete inputs: with metadata import off (`baseS`)
the shared record is untouched and the per-row record is unchanged by the
metadata section. -/
theorem claim_c10_witness :
    (metaSection baseS rMeta (rowCtxInit st0 "A")).pictureRecord
      = (rowCtxInit st0 "A").pictureRecord ∧
    (metaSection baseS rMeta (rowCtxInit st0 "A")).pic = (rowCtxInit st0 "A").pic := by
  have h := claim_c10 baseS rMeta (rowCtxInit st0 "A")
  exact ⟨h.2.2.2.1 (by decide), h.1⟩

example : numField (Cell.float (mkRat 7 1)) = some "7.0" := by decide
example : numField (Cell.int 7) = some "7" := by decide
example : numField (Cell.float (mkRat 29 4)) = some "7.25" := by decide
example : numField (Cell.float (mkRat 71234567 10000000)) = some "7.123" := by decide
example : numField (Cell.str "12.5") = some "12.5" := by decide
example : numField (Cell.str " -3.25 ") = some "-3.25" := by decide
example : numField (Cell.str "abc") = Option.none := by decide
example : numField (Cell.str "") = Option.none := by decide
example : numField Cell.none = Option.none := by decide
example : presenceTruthy (Cell.int 0) = "False" := by decide
example : presenceNotNone (Cell.int 0) = "True" := by decide
example : presenceTruthy (Cell.str "Yes") = "True" := by decide
example : makeYearString (Cell.float (mkRat 19503 10)) = "1950" := by decide
example : strLower "Artwork Title" = "artwork title" := by decide
example : ((processRow baseS st0 rowB).2.1.getD 0 {}).pictureName = "B" := by decide
example : (processRow baseS st0 rowB).2.2 = [] := by decide
example : ((processRow baseS st0 rowA).2.1.getD 0 {}).imageWidth = "5" := by decide
example : ((processRow baseS st0 rowA).2.1.getD 0 {}).withImage = "True" := by decide
example : ((runRows baseS st0 [rowA, rowB]).1.getD 1 {}).imageWidth = "5" := by decide
example : (runRows baseS st0 [rowN]).1.length = 2 := by decide
